import Mathlib

/-!
Verification model of the client-side script of
www.yourguitarandpianolessons.co.uk (src/script.js).

The testimonial slider, the IntersectionObserver-driven section-reveal and
lazy-image mechanisms, and the booking-form submission pipeline are embedded
as pure Lean functions, and the spec's testable properties are settled as
theorems about those functions.
-/

namespace Script

/-- A JavaScript number restricted to the values this script can produce from
index arithmetic and dataset parsing: `some k` is the integer `k`, `none` is
`NaN`. -/
abbrev JSNum := Option Int

/-- The ASCII members of JS StrWhiteSpace (tab, line feed, vertical tab,
form feed, carriage return, space), which the `Number` conversion trims
from both ends of its input. -/
def isJsSpace (c : Char) : Bool :=
  c = ' ' || c = '\t' || c = '\n' || c = '\r' || c = '\x0b' || c = '\x0c'

/-- Characters over which the `Number` conversion is modelled exactly:
decimal digits, the two signs, the decimal point and ASCII whitespace.  A
string made only of these characters can hold no hex, binary, octal,
exponent or Infinity form, so within it the JS grammar admits exactly the
optionally signed decimal literals. -/
def jsCoveredChar (c : Char) : Bool :=
  c.isDigit || c = '+' || c = '-' || c = '.' || isJsSpace c

/-- The both-ends whitespace trim the `Number` conversion performs. -/
def jsTrim (l : List Char) : List Char :=
  ((l.dropWhile isJsSpace).reverse.dropWhile isJsSpace).reverse

/-- Numeric value of a string of decimal digits. -/
def digitsVal (l : List Char) : Nat :=
  l.foldl (fun n c => n * 10 + (c.toNat - Char.toNat '0')) 0

/-- Largest integer magnitude a binary64 JS number represents exactly
(2 to the 53rd); beyond it `Number` may round a digit string, so larger
inputs are left outside the model rather than given an exact value. -/
def jsExactIntBound : Nat := 9007199254740992

/-- The unsigned part of a covered numeric string: decimal digits with an
optional decimal point and fraction digits.  Returns `some (some k)` when
JS evaluates it to exactly the integer `k`, `some none` when JS gives
`NaN`, and `none` when the value is a non-integral number (nonzero
fraction) or exceeds `jsExactIntBound`, which this model does not cover. -/
def jsParseUnsigned (l : List Char) : Option JSNum :=
  let d1 := l.takeWhile Char.isDigit
  let rest := l.dropWhile Char.isDigit
  match rest with
  | [] =>
    if d1 = [] then some none
    else if digitsVal d1 ≤ jsExactIntBound then some (some (digitsVal d1)) else none
  | '.' :: frac =>
    if frac.all Char.isDigit then
      if d1 = [] && frac = [] then some none
      else if frac.all (fun c => c = '0') then
        if digitsVal d1 ≤ jsExactIntBound then some (some (digitsVal d1)) else none
      else none
    else some none
  | _ :: _ => some none

/-- A trimmed covered string: empty converts to `0`, otherwise an optional
sign precedes the unsigned decimal form. -/
def jsParseTrimmed : List Char → Option JSNum
  | [] => some (some 0)
  | '+' :: l => jsParseUnsigned l
  | '-' :: l => (jsParseUnsigned l).map (fun v => v.map (fun k => -k))
  | l => jsParseUnsigned l

/-- Models the JS `Number(...)` conversion applied to
`e.target.dataset.slide` (script.js line 338), exactly on a documented
domain.  `some v` means the conversion provably yields the `JSNum` `v`: a
missing attribute (`undefined`) gives `NaN`; a string of covered characters
is trimmed and read as an optionally signed decimal literal, where an
all-zero fraction keeps the value integral (so strings such as a digit
string followed by a dot and zeros convert to their integer), the empty or
all-whitespace string gives `0`, and any other covered string gives `NaN`.
`none` means the string is outside the model — it contains letters or
non-ASCII characters (hex, exponent or Infinity forms, or Unicode
whitespace), a nonzero fractional part, or digits beyond the binary64
exact-integer bound — and no theorem in this file makes a claim about such
an input. -/
def jsNumber : Option String → Option JSNum
  | none => some none
  | some s =>
    if s.data.all jsCoveredChar then jsParseTrimmed (jsTrim s.data) else none

/-- One navigation dot button: its `data-slide` attribute value and whether
it currently carries the class `dots__dot--active`. -/
structure Dot where
  slide : Nat
  active : Bool
  deriving DecidableEq

/-- Models `createDots` (script.js 276-283): one dot per slide, with
`data-slide = i`, inserted in slide order, initially inactive. -/
def createDots (n : Nat) : List Dot :=
  (List.range n).map (fun i => { slide := i, active := false })

/-- Models the first half of `activateDot` (script.js 287-289):
`classList.remove` of the active marker on every dot. -/
def deactivateAll (dots : List Dot) : List Dot :=
  dots.map (fun d => { d with active := false })

/-- Whether a dot is matched by the selector interpolating the JS number `v`
into the attribute test on `data-slide` (script.js 291-292): `NaN` prints as
the string NaN and matches no dot; an integer matches the dot whose decimal
attribute text equals its decimal printing, which for the nonnegative
attribute values created by `createDots` means `0 ≤ v` and equal value. -/
def dotMatches (v : JSNum) (d : Dot) : Bool :=
  match v with
  | some k => decide (0 ≤ k) && decide (d.slide = k.toNat)
  | none => false

/-- Models `querySelector` plus `classList.add` in `activateDot`
(script.js 291-293): the first matching dot receives the active marker;
`none` means the selector matched nothing, so `querySelector` returned null
and the `classList.add` call threw a TypeError. -/
def addActiveToFirst (v : JSNum) : List Dot → Option (List Dot)
  | [] => none
  | d :: ds =>
    if dotMatches v d then some ({ d with active := true } :: ds)
    else (addActiveToFirst v ds).map (d :: ·)

/-- Models `activateDot` (script.js 286-294): clear the active marker from
every dot, then mark the first dot matching the selector; the returned flag
is `true` exactly when the selector found no dot and the call threw. -/
def activateDot (dots : List Dot) (v : JSNum) : List Dot × Bool :=
  let cleared := deactivateAll dots
  match addActiveToFirst v cleared with
  | some ds => (ds, false)
  | none => (cleared, true)

/-- Models `goToSlide` (script.js 297-301): the slide at position `i` gets a
horizontal offset of `100 * (i - slide)` percent; a `NaN` index makes every
offset `NaN`. -/
def goToSlide (n : Nat) (slide : JSNum) : List JSNum :=
  (List.range n).map (fun (i : Nat) =>
    match slide with
    | some k => some (100 * ((i : Int) - k))
    | none => none)

/-- The slider's mutable state: `curSlide` and the fixed `maxSlide`
(script.js 272-273) together with the rendered slide offsets and the dot
buttons. -/
structure SliderState where
  curSlide : JSNum
  maxSlide : Nat
  transforms : List JSNum
  dots : List Dot
  deriving DecidableEq

/-- The common tail `goToSlide(c); activateDot(c)` that every slider
operation runs right after assigning `curSlide = c`; the flag records an
uncaught TypeError thrown inside `activateDot`. -/
def applyIndex (st : SliderState) (c : JSNum) : SliderState × Bool :=
  let r := activateDot st.dots c
  ({ st with curSlide := c, transforms := goToSlide st.maxSlide c, dots := r.1 }, r.2)

/-- The new index computed by `nextSlide` (script.js 305): zero when
`curSlide` triple-equals `maxSlide - 1`, else `curSlide + 1`; `NaN` compares
false and propagates through the addition. -/
def jsNext (maxSlide : Nat) : JSNum → JSNum
  | some k => if k = (maxSlide : Int) - 1 then some 0 else some (k + 1)
  | none => none

/-- The new index computed by `prevSlide` (script.js 312): `maxSlide - 1`
when `curSlide` triple-equals `0`, else `curSlide - 1`; `NaN` propagates. -/
def jsPrev (maxSlide : Nat) : JSNum → JSNum
  | some k => if k = 0 then some ((maxSlide : Int) - 1) else some (k - 1)
  | none => none

/-- Models `nextSlide` (script.js 304-308). -/
def nextSlide (st : SliderState) : SliderState × Bool :=
  applyIndex st (jsNext st.maxSlide st.curSlide)

/-- Models `prevSlide` (script.js 311-315). -/
def prevSlide (st : SliderState) : SliderState × Bool :=
  applyIndex st (jsPrev st.maxSlide st.curSlide)

/-- The click target seen by the dot-container handler: whether it has the
dot class, and its `data-slide` attribute (`none` = attribute missing). -/
structure DotTarget where
  isDot : Bool
  dataSlide : Option String

/-- Models the dot-container click handler (script.js 336-342): a target
without the dot class is ignored; otherwise `curSlide` is assigned the
`Number` conversion of the dataset value with no validation, then
`goToSlide` and `activateDot` run on it.  The result is `none` exactly when
the dataset string falls outside the domain `jsNumber` models; for covered
targets it is the final state together with the crash flag. -/
def dotContainerClick (st : SliderState) (t : DotTarget) : Option (SliderState × Bool) :=
  if t.isDot then (jsNumber t.dataSlide).map (fun v => applyIndex st v)
  else some (st, false)

/-- A button click or arrow-key press routed to the slider
(script.js 326-333). -/
inductive SliderOp where
  | next
  | prev
  deriving DecidableEq

/-- One slider operation, keeping only the resulting state. -/
def sliderStep (st : SliderState) : SliderOp → SliderState
  | .next => (nextSlide st).1
  | .prev => (prevSlide st).1

/-- A finite sequence of next/previous activations. -/
def runOps (st : SliderState) (ops : List SliderOp) : SliderState :=
  ops.foldl sliderStep st

/-- Models `init` (script.js 318-323): `goToSlide(0); createDots();
activateDot(0)` starting from `curSlide = 0`. -/
def initSlider (n : Nat) : SliderState :=
  { curSlide := some 0
    maxSlide := n
    transforms := goToSlide n (some 0)
    dots := (activateDot (createDots n) (some 0)).1 }

/-- Net signed displacement of a sequence of slider operations: the number
of next calls minus the number of previous calls. -/
def netDisp (ops : List SliderOp) : Int :=
  (ops.count .next : Int) - (ops.count .prev : Int)

/-- The index formula the spec gives for `next()`: `(currentIndex + 1) mod
N`. Stated from the spec's words, to be compared with `jsNext`. -/
def specNextIndex (n : Nat) (c : Int) : Int :=
  (c + 1) % n

/-- The index formula the spec gives for `previous()`: `(currentIndex - 1 +
N) mod N`. Stated from the spec's words, to be compared with `jsPrev`. -/
def specPrevIndex (n : Nat) (c : Int) : Int :=
  (c - 1 + n) % n

/-- An IntersectionObserver configuration: `threshold` (fraction of the
element's area that must be visible) and `rootMargin` in pixels. -/
structure ObserverConfig where
  threshold : ℚ
  rootMarginPx : Int
  deriving DecidableEq

/-- The `sectionObserver` options (script.js 214-217): threshold 0.15;
`rootMargin` is not given there, so the DOM default of 0px applies. -/
def sectionObserverConfig : ObserverConfig :=
  { threshold := 15 / 100, rootMarginPx := 0 }

/-- The `imgObserver` options (script.js 249-253): threshold 0 and a 200px
pre-trigger margin. -/
def imgObserverConfig : ObserverConfig :=
  { threshold := 0, rootMarginPx := 200 }

/-- Modelled from the spec: the Viewport Visibility Notifier collaborator
(spec sections 4.2 and 6; the browser IntersectionObserver, which is not
part of src/): an element counts as intersecting when the visible fraction
of its area reaches the configured threshold. -/
def intersects (cfg : ObserverConfig) (visibleFraction : ℚ) : Bool :=
  decide (cfg.threshold ≤ visibleFraction)

/-- A revealable section: whether it carries the hidden marker class, and
how many times the reveal mutation (the `classList.remove` call) has run on
it, to make applied-exactly-once statements meaningful. -/
structure SectionEl where
  hidden : Bool
  removeCount : Nat
  deriving DecidableEq

/-- An element together with the notifier-side fact of whether it is still
being observed. -/
structure Watched (α : Type) where
  el : α
  observed : Bool
  deriving DecidableEq

/-- The settling branch of `revealSection` (script.js 210-211): remove the
hidden marker from the entry's target and unobserve it. -/
def settleSection (w : Watched SectionEl) : Watched SectionEl :=
  { el := { hidden := false, removeCount := w.el.removeCount + 1 }, observed := false }

/-- Models `revealSection` (script.js 206-212). The callback destructures
the first entry of the notification batch (throwing on an empty batch,
hence `none`); if that entry is not intersecting it returns with no action;
otherwise it reveals and unobserves that entry's target only. Elements are
named by a `Nat` identifier and the page state maps identifiers to watched
sections. -/
def revealSection (entries : List (Nat × Bool)) (st : Nat → Watched SectionEl) :
    Option (Nat → Watched SectionEl) :=
  match entries with
  | [] => none
  | (i, inter) :: _ =>
    if inter then some (Function.update st i (settleSection (st i))) else some st

/-- The notifier delivers a visibility change for section `i`: the callback
is invoked (with a singleton batch) only while `i` is still observed. -/
def notifySection (st : Nat → Watched SectionEl) (n : Nat × Bool) :
    Nat → Watched SectionEl :=
  if (st n.1).observed then (revealSection [n] st).getD st else st

/-- A finite sequence of visibility notifications for sections. -/
def runSectionNotifs (st : Nat → Watched SectionEl) (ns : List (Nat × Bool)) :
    Nat → Watched SectionEl :=
  ns.foldl notifySection st

/-- Models arming one section (script.js 220-223): `observe` it and add the
hidden marker, both synchronously at arm time, before any notification can
be delivered. -/
def armSection (e : SectionEl) : Watched SectionEl :=
  { el := { e with hidden := true }, observed := true }

/-- A lazy image: live `src` attribute, deferred `data-src` attribute, the
blur placeholder class, and the number of attached load listeners (each
`loadImg` settling attaches one). -/
structure ImgEl where
  src : Option String
  dataSrc : String
  lazyClass : Bool
  loadListeners : Nat
  deriving DecidableEq

/-- The settling branch of `loadImg` (script.js 239-246): copy the deferred
source into the live `src`, attach a load listener, and unobserve; the blur
class is not touched at this point. -/
def settleImg (w : Watched ImgEl) : Watched ImgEl :=
  { el := { w.el with src := some w.el.dataSrc, loadListeners := w.el.loadListeners + 1 }
    observed := false }

/-- Models `loadImg` (script.js 234-247): the same first-entry-only batch
handling as `revealSection`, with the image settling mutation. -/
def loadImg (entries : List (Nat × Bool)) (st : Nat → Watched ImgEl) :
    Option (Nat → Watched ImgEl) :=
  match entries with
  | [] => none
  | (i, inter) :: _ =>
    if inter then some (Function.update st i (settleImg (st i))) else some st

/-- The notifier delivers a visibility change for image `i`: the callback is
invoked (with a singleton batch) only while `i` is still observed. -/
def notifyImg (st : Nat → Watched ImgEl) (n : Nat × Bool) : Nat → Watched ImgEl :=
  if (st n.1).observed then (loadImg [n] st).getD st else st

/-- A finite sequence of visibility notifications for images. -/
def runImgNotifs (st : Nat → Watched ImgEl) (ns : List (Nat × Bool)) :
    Nat → Watched ImgEl :=
  ns.foldl notifyImg st

/-- The element-native load-completion event (script.js 242-244): an
attached listener removes the blur class; with no listener attached nothing
happens. -/
def imgLoadEvent (w : Watched ImgEl) : Watched ImgEl :=
  if 0 < w.el.loadListeners then { w with el := { w.el with lazyClass := false } } else w

/-- Outcome of the single `fetch` POST of the booking form
(script.js 381-385): a server response carrying its `ok` flag, or a
rejected promise (transport failure). -/
inductive FetchOutcome where
  | response (ok : Bool)
  | networkError
  deriving DecidableEq

/-- Observable effects of one run of the booking-form submit handler. -/
structure SubmitEffects where
  fetchAttempts : Nat
  analyticsEvent : Option String
  formReset : Bool
  modalClosed : Bool
  alertMessage : String
  deriving DecidableEq

/-- Models the booking-form submit handler (script.js 368-412): exactly one
fetch, then three branches — a response with `ok` true, a response with `ok`
false, and the catch arm for a transport failure — with no retry anywhere.
The analytics lead event fires only when the analytics function exists. -/
def bookingSubmit (gtagExists : Bool) (outcome : FetchOutcome) : SubmitEffects :=
  match outcome with
  | .response true =>
    { fetchAttempts := 1
      analyticsEvent := if gtagExists then some "generate_lead" else none
      formReset := true
      modalClosed := true
      alertMessage := "Thanks! Your booking request has been sent. I’ll reply shortly." }
  | .response false =>
    { fetchAttempts := 1
      analyticsEvent := none
      formReset := false
      modalClosed := false
      alertMessage := "Sorry, something went wrong. Please try again." }
  | .networkError =>
    { fetchAttempts := 1
      analyticsEvent := none
      formReset := false
      modalClosed := false
      alertMessage := "Network error. Please try again." }

/-! ### Slider index arithmetic -/

lemma jsNext_eq_emod (n : Nat) (c : Int) (h0 : 0 ≤ c) (h1 : c < n) :
    jsNext n (some c) = some ((c + 1) % n) := by
  by_cases hc : c = (n : Int) - 1
  · simp only [jsNext, hc, if_true, eq_self_iff_true]
    rw [show (n : Int) - 1 + 1 = n by ring, Int.emod_self]
  · simp only [jsNext, if_neg hc]
    rw [Int.emod_eq_of_lt (by omega) (by omega)]

lemma jsPrev_eq_emod (n : Nat) (c : Int) (h0 : 0 ≤ c) (h1 : c < n) :
    jsPrev n (some c) = some ((c - 1 + n) % n) := by
  by_cases hc : c = 0
  · simp only [jsPrev, hc, if_true, eq_self_iff_true]
    rw [show (0 : Int) - 1 + n = (n : Int) - 1 by ring,
      Int.emod_eq_of_lt (by omega) (by omega)]
  · simp only [jsPrev, if_neg hc]
    rw [show c - 1 + (n : Int) = c - 1 + n * 1 by ring, Int.add_mul_emod_self_left,
      Int.emod_eq_of_lt (by omega) (by omega)]

lemma emod_absorb_left (a b n : Int) : (a % n + b) % n = (a + b) % n := by
  rw [Int.add_emod, Int.emod_emod_of_dvd _ (dvd_refl n), ← Int.add_emod]

lemma netDisp_nil : netDisp [] = 0 := by
  simp [netDisp]

lemma netDisp_cons_next (t : List SliderOp) : netDisp (.next :: t) = netDisp t + 1 := by
  simp [netDisp, List.count_cons]
  ring

lemma netDisp_cons_prev (t : List SliderOp) : netDisp (.prev :: t) = netDisp t - 1 := by
  simp [netDisp, List.count_cons]
  ring

lemma runOps_cons (st : SliderState) (op : SliderOp) (t : List SliderOp) :
    runOps st (op :: t) = runOps (sliderStep st op) t := rfl

lemma applyIndex_curSlide (st : SliderState) (c : JSNum) :
    (applyIndex st c).1.curSlide = c := rfl

lemma applyIndex_maxSlide (st : SliderState) (c : JSNum) :
    (applyIndex st c).1.maxSlide = st.maxSlide := rfl

lemma applyIndex_snd (st : SliderState) (c : JSNum) :
    (applyIndex st c).2 = (activateDot st.dots c).2 := rfl

lemma applyIndex_transforms (st : SliderState) (c : JSNum) :
    (applyIndex st c).1.transforms = goToSlide st.maxSlide c := rfl

lemma applyIndex_dots (st : SliderState) (c : JSNum) :
    (applyIndex st c).1.dots = (activateDot st.dots c).1 := rfl

/-- Main run lemma: over any sequence of next/previous activations the
current index evolves as addition of the net displacement modulo the slide
count. -/
lemma runOps_curSlide (n : Nat) (ops : List SliderOp) :
    ∀ (st : SliderState) (c : Int), st.maxSlide = n → st.curSlide = some c →
      0 ≤ c → c < n →
      (runOps st ops).curSlide = some ((c + netDisp ops) % n) := by
  induction ops with
  | nil =>
    intro st c hm hc h0 h1
    show st.curSlide = some ((c + netDisp []) % n)
    rw [hc, netDisp_nil, add_zero, Int.emod_eq_of_lt h0 h1]
  | cons op t ih =>
    intro st c hm hc h0 h1
    have hn : (0 : Int) < n := by omega
    rw [runOps_cons]
    cases op with
    | next =>
      have hcur : (sliderStep st .next).curSlide = some ((c + 1) % n) := by
        show (applyIndex st (jsNext st.maxSlide st.curSlide)).1.curSlide = _
        rw [applyIndex_curSlide, hm, hc, jsNext_eq_emod n c h0 h1]
      have hmax : (sliderStep st .next).maxSlide = n := by
        show (applyIndex st (jsNext st.maxSlide st.curSlide)).1.maxSlide = n
        rw [applyIndex_maxSlide, hm]
      rw [ih _ _ hmax hcur (Int.emod_nonneg _ (by omega)) (Int.emod_lt_of_pos _ hn),
        netDisp_cons_next, emod_absorb_left,
        show c + 1 + netDisp t = c + (netDisp t + 1) by ring]
    | prev =>
      have hcur : (sliderStep st .prev).curSlide = some ((c - 1 + n) % n) := by
        show (applyIndex st (jsPrev st.maxSlide st.curSlide)).1.curSlide = _
        rw [applyIndex_curSlide, hm, hc, jsPrev_eq_emod n c h0 h1]
      have hmax : (sliderStep st .prev).maxSlide = n := by
        show (applyIndex st (jsPrev st.maxSlide st.curSlide)).1.maxSlide = n
        rw [applyIndex_maxSlide, hm]
      rw [ih _ _ hmax hcur (Int.emod_nonneg _ (by omega)) (Int.emod_lt_of_pos _ hn),
        netDisp_cons_prev, emod_absorb_left,
        show c - 1 + (n : Int) + netDisp t = c + (netDisp t - 1) + n * 1 by ring,
        Int.add_mul_emod_self_left]

/-- C2: for every slide count N ≥ 1 and every finite sequence of
next/previous calls starting from the initialized state, `curSlide` stays in
[0, N-1] after every call and equals the net signed displacement (next
calls minus previous calls) modulo N. -/
theorem slider_index_in_range_net_displacement (n : Nat) (hn : 1 ≤ n)
    (ops : List SliderOp) :
    (runOps (initSlider n) ops).curSlide = some (netDisp ops % (n : Int)) ∧
    0 ≤ netDisp ops % (n : Int) ∧ netDisp ops % (n : Int) < (n : Int) := by
  have h := runOps_curSlide n ops (initSlider n) 0 rfl rfl le_rfl (by omega)
  rw [zero_add] at h
  exact ⟨h, Int.emod_nonneg _ (by omega), Int.emod_lt_of_pos _ (by omega)⟩

theorem slider_index_in_range_net_displacement_witness :
    (runOps (initSlider 3) [SliderOp.next, SliderOp.next, SliderOp.prev]).curSlide =
      some 1 := by
  have h := slider_index_in_range_net_displacement 3 (by decide)
    [SliderOp.next, SliderOp.next, SliderOp.prev]
  have h2 : netDisp [SliderOp.next, SliderOp.next, SliderOp.prev] % (3 : Int) = 1 := by
    decide
  exact h2 ▸ h.1

/-- C3: for every slide count N ≥ 1 and every starting index in [0, N-1],
calling next() exactly N times returns `curSlide` to the starting index. -/
theorem slider_next_maxSlide_times_identity (n : Nat) (st : SliderState) (i : Int)
    (hm : st.maxSlide = n) (hc : st.curSlide = some i) (h0 : 0 ≤ i) (h1 : i < n) :
    (runOps st (List.replicate n SliderOp.next)).curSlide = some i := by
  have h := runOps_curSlide n (List.replicate n .next) st i hm hc h0 h1
  have hd : netDisp (List.replicate n SliderOp.next) = n := by
    simp [netDisp, List.count_replicate]
  rw [h, hd, show i + (n : Int) = i + n * 1 by ring, Int.add_mul_emod_self_left,
    Int.emod_eq_of_lt h0 h1]

theorem slider_next_maxSlide_times_identity_witness :
    (runOps (initSlider 3) (List.replicate 3 SliderOp.next)).curSlide = some 0 :=
  slider_next_maxSlide_times_identity 3 (initSlider 3) 0 rfl rfl (by decide) (by decide)

/-- C5: on every legal state, the conditional-wrap implementations of
nextSlide and prevSlide compute exactly the indices the spec's modular
formulas give: (c + 1) mod N and (c - 1 + N) mod N; wrap-around is
unconditional in both directions. -/
theorem slider_wrap_refines_mod (n : Nat) (c : Int) (h0 : 0 ≤ c) (h1 : c < n) :
    jsNext n (some c) = some (specNextIndex n c) ∧
    jsPrev n (some c) = some (specPrevIndex n c) :=
  ⟨jsNext_eq_emod n c h0 h1, jsPrev_eq_emod n c h0 h1⟩

theorem slider_wrap_refines_mod_witness :
    jsNext 5 (some 4) = some (specNextIndex 5 4) ∧
    jsPrev 5 (some 4) = some (specPrevIndex 5 4) :=
  slider_wrap_refines_mod 5 4 (by decide) (by decide)

/-! ### Dot activation -/

lemma dotMatches_set_active (v : JSNum) (d : Dot) (b : Bool) :
    dotMatches v { d with active := b } = dotMatches v d := by
  cases v <;> rfl

lemma addActive_none_iff (v : JSNum) (l : List Dot) :
    addActiveToFirst v l = none ↔ ∀ d ∈ l, dotMatches v d = false := by
  induction l with
  | nil => simp [addActiveToFirst]
  | cons d ds ih =>
    by_cases h : dotMatches v d = true
    · simp [addActiveToFirst, h]
    · simp only [Bool.not_eq_true] at h
      simp [addActiveToFirst, h, Option.map_eq_none', ih]

lemma addActive_some_spec (v : JSNum) (l : List Dot) :
    ∀ out, (∀ d ∈ l, d.active = false) → addActiveToFirst v l = some out →
      out.countP (fun d => d.active) = 1 ∧
      (∀ d ∈ out, d.active = true → dotMatches v d = true) := by
  induction l with
  | nil => intro out _ hout; simp [addActiveToFirst] at hout
  | cons d ds ih =>
    intro out hall hout
    by_cases h : dotMatches v d = true
    · rw [addActiveToFirst, if_pos h, Option.some_inj] at hout
      subst hout
      refine ⟨?_, ?_⟩
      · rw [List.countP_cons]
        have hz : List.countP (fun d => d.active) ds = 0 :=
          List.countP_eq_zero.mpr (fun a ha => by simp [hall a (List.mem_cons_of_mem d ha)])
        simp [hz]
      · intro d' hd' hact
        rcases List.mem_cons.mp hd' with rfl | hmem
        · rw [dotMatches_set_active]; exact h
        · exact absurd hact (by simp [hall d' (List.mem_cons_of_mem d hmem)])
    · simp only [Bool.not_eq_true] at h
      rw [addActiveToFirst, if_neg (by simp [h])] at hout
      obtain ⟨out', hout', rfl⟩ := Option.map_eq_some'.mp hout
      have hih := ih out' (fun a ha => hall a (List.mem_cons_of_mem d ha)) hout'
      refine ⟨?_, ?_⟩
      · rw [List.countP_cons]
        simp [hih.1, hall d (List.mem_cons_self d ds)]
      · intro d' hd' hact
        rcases List.mem_cons.mp hd' with rfl | hmem
        · exact absurd hact (by simp [hall d' (List.mem_cons_self d' ds)])
        · exact hih.2 d' hmem hact

lemma goToSlide_some (n : Nat) (k : Int) :
    goToSlide n (some k) =
      (List.range n).map (fun (q : Nat) => some (100 * ((q : Int) - k))) := rfl

lemma goToSlide_getElem (n : Nat) (k : Int) (p : Nat) (hp : p < n) :
    (goToSlide n (some k))[p]? = some (some (100 * ((p : Int) - k))) := by
  rw [goToSlide_some, List.getElem?_map, List.getElem?_range hp, Option.map_some']

lemma mem_createDots (n : Nat) (d : Dot) :
    d ∈ createDots n ↔ ∃ j, j < n ∧ d = { slide := j, active := false } := by
  simp only [createDots, List.mem_map, List.mem_range]
  constructor
  · rintro ⟨j, hj, rfl⟩; exact ⟨j, hj, rfl⟩
  · rintro ⟨j, hj, rfl⟩; exact ⟨j, hj, rfl⟩

/-- C4: after `goTo(i)` with `0 ≤ i < N`, every slide at position `p` has
horizontal offset `100 * (p - i)` percent, exactly one slide (position `i`)
has offset 0, exactly one dot carries the active marker, that dot is the one
for index `i`, and the operation completes without throwing. -/
theorem goTo_offsets_and_unique_active_dot (n i : Nat) (hi : i < n)
    (st : SliderState) (hm : st.maxSlide = n)
    (hd : deactivateAll st.dots = createDots n) :
    (applyIndex st (some (i : Int))).2 = false ∧
    (∀ p : Nat, p < n →
      (applyIndex st (some (i : Int))).1.transforms[p]? =
        some (some (100 * ((p : Int) - (i : Int))))) ∧
    (∀ p : Nat, p < n →
      ((applyIndex st (some (i : Int))).1.transforms[p]? = some (some 0) ↔ p = i)) ∧
    (applyIndex st (some (i : Int))).1.dots.countP (fun d => d.active) = 1 ∧
    (∀ d ∈ (applyIndex st (some (i : Int))).1.dots, d.active = true → d.slide = i) := by
  have hmem : ({ slide := i, active := false } : Dot) ∈ createDots n :=
    (mem_createDots n _).mpr ⟨i, hi, rfl⟩
  have hmatch : dotMatches (some (i : Int)) { slide := i, active := false } = true := by
    simp [dotMatches]
  obtain ⟨out, hout⟩ :
      ∃ out, addActiveToFirst (some (i : Int)) (createDots n) = some out := by
    cases h : addActiveToFirst (some (i : Int)) (createDots n) with
    | some out => exact ⟨out, rfl⟩
    | none =>
      exact absurd hmatch
        (by simp [(addActive_none_iff _ _).mp h _ hmem])
  have hall : ∀ d ∈ createDots n, d.active = false := by
    intro d hdm
    obtain ⟨j, _, rfl⟩ := (mem_createDots n d).mp hdm
    rfl
  have hspec := addActive_some_spec (some (i : Int)) (createDots n) out hall hout
  have hact : activateDot st.dots (some (i : Int)) = (out, false) := by
    rw [activateDot]
    rw [hd, hout]
  refine ⟨?_, ?_, ?_, ?_, ?_⟩
  · rw [applyIndex_snd, hact]
  · intro p hp
    rw [applyIndex_transforms, hm, goToSlide_getElem n _ p hp]
  · intro p hp
    rw [applyIndex_transforms, hm, goToSlide_getElem n _ p hp]
    simp only [Option.some_inj]
    omega
  · rw [applyIndex_dots, hact]
    exact hspec.1
  · rw [applyIndex_dots, hact]
    intro d hdm hactive
    have := hspec.2 d hdm hactive
    simp only [dotMatches, Bool.and_eq_true, decide_eq_true_eq] at this
    omega

theorem goTo_offsets_and_unique_active_dot_witness :
    (applyIndex (initSlider 3) (some (1 : Int))).2 = false ∧
    (applyIndex (initSlider 3) (some (1 : Int))).1.dots.countP (fun d => d.active) = 1 := by
  have h := goTo_offsets_and_unique_active_dot 3 1 (by decide) (initSlider 3) rfl (by decide)
  exact ⟨h.1, h.2.2.2.1⟩

/-! ### Dot-click validation (claim C1) -/

/-- Counterexample to C1 as stated: on a 3-slide carousel at index 0, a
dot-selection input encoding the out-of-range index 5 does NOT leave
`curSlide` unchanged (it becomes 5), and the handler throws inside
`activateDot` rather than silently ignoring the input. -/
theorem dot_click_malformed_counterexample :
    (dotContainerClick (initSlider 3) { isDot := true, dataSlide := some "5" }).map
        (fun r => r.2) = some true ∧
    (dotContainerClick (initSlider 3) { isDot := true, dataSlide := some "5" }).map
        (fun r => r.1.curSlide) ≠ some ((initSlider 3).curSlide) := by
  decide

/-- C1 amended: a dot-container click whose target lacks the dot class is
ignored (state unchanged, no crash); but for a target carrying the dot
class the encoded index is applied with no validation: whenever the
`Number` conversion of its dataset value yields `NaN` (for instance a
missing attribute or a letterless non-numeric string) or an integer
outside [0, N-1], the handler overwrites `curSlide` with that value,
applies the corresponding slide offsets, clears every dot's active marker,
and then throws a TypeError inside `activateDot` — malformed input is not
silently ignored.  (Dataset strings whose conversion needs full binary64
semantics lie outside the model and outside this statement.) -/
theorem dot_click_unvalidated (n : Nat) (st : SliderState) (t : DotTarget)
    (hd : deactivateAll st.dots = createDots n) (ht : t.isDot = true)
    (v : JSNum) (hv : jsNumber t.dataSlide = some v)
    (hbad : v = none ∨ ∃ k : Int, v = some k ∧ (k < 0 ∨ (n : Int) ≤ k)) :
    dotContainerClick st t = some (applyIndex st v) ∧
    (applyIndex st v).2 = true ∧
    (applyIndex st v).1.curSlide = v ∧
    (∀ t2 : DotTarget, t2.isDot = false → dotContainerClick st t2 = some (st, false)) := by
  have hnone : addActiveToFirst v (deactivateAll st.dots) = none := by
    rw [hd]
    refine (addActive_none_iff _ _).mpr ?_
    intro d hdm
    obtain ⟨j, hj, rfl⟩ := (mem_createDots n d).mp hdm
    rcases hbad with hnan | ⟨k, hk, hrange⟩
    · rw [hnan]; rfl
    · rw [hk]
      simp only [dotMatches, Bool.and_eq_false_iff, decide_eq_false_iff_not]
      omega
  have hact : activateDot st.dots v = (deactivateAll st.dots, true) := by
    rw [activateDot, hnone]
  refine ⟨?_, ?_, ?_, ?_⟩
  · rw [dotContainerClick, ht]
    simp [hv]
  · rw [applyIndex_snd, hact]
  · rw [applyIndex_curSlide]
  · intro t2 ht2
    rw [dotContainerClick, ht2]
    simp

theorem dot_click_unvalidated_witness :
    dotContainerClick (initSlider 3) { isDot := true, dataSlide := some "5" } =
      some (applyIndex (initSlider 3) (some 5)) ∧
    (applyIndex (initSlider 3) (some 5)).2 = true := by
  have h := dot_click_unvalidated 3 (initSlider 3) { isDot := true, dataSlide := some "5" }
    (by decide) rfl (some 5) (by decide) (Or.inr ⟨5, rfl, by decide⟩)
  exact ⟨h.1, h.2.1⟩

/-! ### Viewport trigger engine -/

lemma notifySection_not_inter (st : Nat → Watched SectionEl) (i : Nat) :
    notifySection st (i, false) = st := by
  simp [notifySection, revealSection]

lemma notifySection_inter_observed (st : Nat → Watched SectionEl) (i : Nat)
    (h : (st i).observed = true) :
    notifySection st (i, true) = Function.update st i (settleSection (st i)) := by
  simp [notifySection, revealSection, h]

lemma notifySection_frozen (st : Nat → Watched SectionEl) (n : Nat × Bool) (i : Nat)
    (h : (st i).observed = false) :
    notifySection st n i = st i := by
  obtain ⟨j, b⟩ := n
  by_cases hobs : (st j).observed = true
  · cases b
    · rw [notifySection_not_inter]
    · rw [notifySection_inter_observed st j hobs]
      by_cases hij : i = j
      · subst hij
        rw [h] at hobs
        exact absurd hobs (by simp)
      · rw [Function.update_noteq hij]
  · simp only [Bool.not_eq_true] at hobs
    simp [notifySection, hobs]

lemma runSectionNotifs_cons (st : Nat → Watched SectionEl) (n : Nat × Bool)
    (ns : List (Nat × Bool)) :
    runSectionNotifs st (n :: ns) = runSectionNotifs (notifySection st n) ns := rfl

lemma runSectionNotifs_frozen (ns : List (Nat × Bool)) :
    ∀ (st : Nat → Watched SectionEl) (i : Nat), (st i).observed = false →
      runSectionNotifs st ns i = st i := by
  induction ns with
  | nil => intro st i _; rfl
  | cons n ns ih =>
    intro st i h
    rw [runSectionNotifs_cons]
    have hfroz := notifySection_frozen st n i h
    rw [ih (notifySection st n) i (by rw [hfroz, h]), hfroz]

lemma notifySection_removeCount_inv (st : Nat → Watched SectionEl) (n : Nat × Bool)
    (i : Nat)
    (h : ((st i).observed = true ∧ (st i).el.removeCount = 0) ∨
      ((st i).observed = false ∧ (st i).el.removeCount ≤ 1)) :
    ((notifySection st n i).observed = true ∧ (notifySection st n i).el.removeCount = 0) ∨
      ((notifySection st n i).observed = false ∧
        (notifySection st n i).el.removeCount ≤ 1) := by
  obtain ⟨j, b⟩ := n
  by_cases hobs : (st j).observed = true
  · cases b
    · rw [notifySection_not_inter]; exact h
    · rw [notifySection_inter_observed st j hobs]
      by_cases hij : i = j
      · subst hij
        rw [Function.update_same]
        rcases h with ⟨_, hcount⟩ | ⟨hfalse, _⟩
        · right
          exact ⟨rfl, by simp [settleSection, hcount]⟩
        · rw [hfalse] at hobs
          exact absurd hobs (by simp)
      · rw [Function.update_noteq hij]; exact h
  · simp only [Bool.not_eq_true] at hobs
    simp only [notifySection, hobs, Bool.false_eq_true, if_false]
    exact h

lemma runSectionNotifs_removeCount (ns : List (Nat × Bool)) :
    ∀ (st : Nat → Watched SectionEl) (i : Nat),
      (((st i).observed = true ∧ (st i).el.removeCount = 0) ∨
        ((st i).observed = false ∧ (st i).el.removeCount ≤ 1)) →
      (runSectionNotifs st ns i).el.removeCount ≤ 1 := by
  induction ns with
  | nil =>
    intro st i h
    rcases h with ⟨_, hc⟩ | ⟨_, hc⟩ <;> simp [runSectionNotifs, hc]
  | cons n ns ih =>
    intro st i h
    rw [runSectionNotifs_cons]
    exact ih (notifySection st n) i (notifySection_removeCount_inv st n i h)

lemma notifyImg_not_inter (st : Nat → Watched ImgEl) (i : Nat) :
    notifyImg st (i, false) = st := by
  simp [notifyImg, loadImg]

lemma notifyImg_inter_observed (st : Nat → Watched ImgEl) (i : Nat)
    (h : (st i).observed = true) :
    notifyImg st (i, true) = Function.update st i (settleImg (st i)) := by
  simp [notifyImg, loadImg, h]

lemma notifyImg_frozen (st : Nat → Watched ImgEl) (n : Nat × Bool) (i : Nat)
    (h : (st i).observed = false) :
    notifyImg st n i = st i := by
  obtain ⟨j, b⟩ := n
  by_cases hobs : (st j).observed = true
  · cases b
    · rw [notifyImg_not_inter]
    · rw [notifyImg_inter_observed st j hobs]
      by_cases hij : i = j
      · subst hij
        rw [h] at hobs
        exact absurd hobs (by simp)
      · rw [Function.update_noteq hij]
  · simp only [Bool.not_eq_true] at hobs
    simp [notifyImg, hobs]

lemma runImgNotifs_cons (st : Nat → Watched ImgEl) (n : Nat × Bool)
    (ns : List (Nat × Bool)) :
    runImgNotifs st (n :: ns) = runImgNotifs (notifyImg st n) ns := rfl

lemma runImgNotifs_frozen (ns : List (Nat × Bool)) :
    ∀ (st : Nat → Watched ImgEl) (i : Nat), (st i).observed = false →
      runImgNotifs st ns i = st i := by
  induction ns with
  | nil => intro st i _; rfl
  | cons n ns ih =>
    intro st i h
    rw [runImgNotifs_cons]
    have hfroz := notifyImg_frozen st n i h
    rw [ih (notifyImg st n) i (by rw [hfroz, h]), hfroz]

lemma notifyImg_loadListeners_inv (st : Nat → Watched ImgEl) (n : Nat × Bool) (i : Nat)
    (h : ((st i).observed = true ∧ (st i).el.loadListeners = 0) ∨
      ((st i).observed = false ∧ (st i).el.loadListeners ≤ 1)) :
    ((notifyImg st n i).observed = true ∧ (notifyImg st n i).el.loadListeners = 0) ∨
      ((notifyImg st n i).observed = false ∧
        (notifyImg st n i).el.loadListeners ≤ 1) := by
  obtain ⟨j, b⟩ := n
  by_cases hobs : (st j).observed = true
  · cases b
    · rw [notifyImg_not_inter]; exact h
    · rw [notifyImg_inter_observed st j hobs]
      by_cases hij : i = j
      · subst hij
        rw [Function.update_same]
        rcases h with ⟨_, hcount⟩ | ⟨hfalse, _⟩
        · right
          exact ⟨rfl, by simp [settleImg, hcount]⟩
        · rw [hfalse] at hobs
          exact absurd hobs (by simp)
      · rw [Function.update_noteq hij]; exact h
  · simp only [Bool.not_eq_true] at hobs
    simp only [notifyImg, hobs, Bool.false_eq_true, if_false]
    exact h

lemma runImgNotifs_loadListeners (ns : List (Nat × Bool)) :
    ∀ (st : Nat → Watched ImgEl) (i : Nat),
      (((st i).observed = true ∧ (st i).el.loadListeners = 0) ∨
        ((st i).observed = false ∧ (st i).el.loadListeners ≤ 1)) →
      (runImgNotifs st ns i).el.loadListeners ≤ 1 := by
  induction ns with
  | nil =>
    intro st i h
    rcases h with ⟨_, hc⟩ | ⟨_, hc⟩ <;> simp [runImgNotifs, hc]
  | cons n ns ih =>
    intro st i h
    rw [runImgNotifs_cons]
    exact ih (notifyImg st n) i (notifyImg_loadListeners_inv st n i h)

lemma notifyImg_lazyClass (st : Nat → Watched ImgEl) (n : Nat × Bool) (i : Nat) :
    (notifyImg st n i).el.lazyClass = (st i).el.lazyClass := by
  obtain ⟨j, b⟩ := n
  by_cases hobs : (st j).observed = true
  · cases b
    · rw [notifyImg_not_inter]
    · rw [notifyImg_inter_observed st j hobs]
      by_cases hij : i = j
      · subst hij
        rw [Function.update_same]
        rfl
      · rw [Function.update_noteq hij]
  · simp only [Bool.not_eq_true] at hobs
    simp [notifyImg, hobs]

lemma runImgNotifs_lazyClass (ns : List (Nat × Bool)) :
    ∀ (st : Nat → Watched ImgEl) (i : Nat),
      (runImgNotifs st ns i).el.lazyClass = (st i).el.lazyClass := by
  induction ns with
  | nil => intro st i; rfl
  | cons n ns ih =>
    intro st i
    rw [runImgNotifs_cons, ih, notifyImg_lazyClass]

/-- A freshly armed section used as a concrete fixture: hidden, never
mutated, observed. -/
def pendingSection : Watched SectionEl := ⟨⟨true, 0⟩, true⟩

/-- A freshly armed lazy image used as a concrete fixture: no live source
yet, blurred, observed. -/
def pendingImg : Watched ImgEl := ⟨⟨none, "a.jpg", true, 0⟩, true⟩

/-- C6: for every watched element (revealable section or lazy image), the
first visibility notification reporting it intersecting applies the mutation
exactly once and permanently cancels observation of that element, a
non-intersecting notification applies no mutation, and no sequence of
further notifications can apply the mutation a second time. -/
theorem observer_one_shot_idempotent
    (st : Nat → Watched SectionEl) (sti : Nat → Watched ImgEl) (i : Nat) :
    notifySection st (i, false) = st ∧
    notifyImg sti (i, false) = sti ∧
    ((st i).observed = true →
      notifySection st (i, true) i = settleSection (st i) ∧
      (notifySection st (i, true) i).observed = false ∧
      (notifySection st (i, true) i).el.removeCount = (st i).el.removeCount + 1) ∧
    ((sti i).observed = true →
      notifyImg sti (i, true) i = settleImg (sti i) ∧
      (notifyImg sti (i, true) i).observed = false) ∧
    ((st i).observed = false → ∀ ns, runSectionNotifs st ns i = st i) ∧
    ((sti i).observed = false → ∀ ns, runImgNotifs sti ns i = sti i) ∧
    ((st i).observed = true → (st i).el.removeCount = 0 →
      ∀ ns, (runSectionNotifs st ns i).el.removeCount ≤ 1) ∧
    ((sti i).observed = true → (sti i).el.loadListeners = 0 →
      ∀ ns, (runImgNotifs sti ns i).el.loadListeners ≤ 1) := by
  refine ⟨notifySection_not_inter st i, notifyImg_not_inter sti i, ?_, ?_, ?_, ?_, ?_, ?_⟩
  · intro h
    rw [notifySection_inter_observed st i h, Function.update_same]
    exact ⟨rfl, rfl, rfl⟩
  · intro h
    rw [notifyImg_inter_observed sti i h, Function.update_same]
    exact ⟨rfl, rfl⟩
  · intro h ns
    exact runSectionNotifs_frozen ns st i h
  · intro h ns
    exact runImgNotifs_frozen ns sti i h
  · intro hobs hcount ns
    exact runSectionNotifs_removeCount ns st i (Or.inl ⟨hobs, hcount⟩)
  · intro hobs hcount ns
    exact runImgNotifs_loadListeners ns sti i (Or.inl ⟨hobs, hcount⟩)

theorem observer_one_shot_idempotent_witness :
    (runSectionNotifs (fun _ => pendingSection)
      [(0, true), (0, true), (1, false)] 0).el.removeCount ≤ 1 := by
  have h := observer_one_shot_idempotent (fun _ => pendingSection)
    (fun _ => pendingImg) 0
  exact h.2.2.2.2.2.2.1 rfl rfl [(0, true), (0, true), (1, false)]

/-- C7: section reveal applies the hidden marker synchronously at arm time,
is configured with threshold 0.15 and margin 0, and its mutation removes the
hidden marker; a section at 10 percent visibility is not revealed, while one
reaching at least 15 percent visibility is revealed exactly once and its
state never changes under further notifications. -/
theorem section_reveal_threshold_scenario
    (st : Nat → Watched SectionEl) (i : Nat) (e : SectionEl)
    (harm : st i = armSection e) :
    sectionObserverConfig.threshold = 15 / 100 ∧
    sectionObserverConfig.rootMarginPx = 0 ∧
    (armSection e).el.hidden = true ∧
    (armSection e).observed = true ∧
    (∀ w : Watched SectionEl, (settleSection w).el.hidden = false) ∧
    intersects sectionObserverConfig (1 / 10) = false ∧
    notifySection st (i, intersects sectionObserverConfig (1 / 10)) = st ∧
    (∀ f : ℚ, 15 / 100 ≤ f →
      (notifySection st (i, intersects sectionObserverConfig f) i).el.hidden = false ∧
      (notifySection st (i, intersects sectionObserverConfig f) i).el.removeCount =
        (st i).el.removeCount + 1 ∧
      (notifySection st (i, intersects sectionObserverConfig f) i).observed = false ∧
      (∀ ns, runSectionNotifs
          (notifySection st (i, intersects sectionObserverConfig f)) ns i =
        notifySection st (i, intersects sectionObserverConfig f) i)) := by
  have hlow : intersects sectionObserverConfig (1 / 10) = false := by
    simp only [intersects, sectionObserverConfig, decide_eq_false_iff_not]
    norm_num
  have hobs : (st i).observed = true := by rw [harm]; rfl
  refine ⟨rfl, rfl, rfl, rfl, fun w => rfl, hlow, ?_, ?_⟩
  · rw [hlow, notifySection_not_inter]
  · intro f hf
    have hhigh : intersects sectionObserverConfig f = true := decide_eq_true hf
    rw [hhigh, notifySection_inter_observed st i hobs, Function.update_same]
    refine ⟨rfl, rfl, rfl, ?_⟩
    intro ns
    have hfr : (Function.update st i (settleSection (st i)) i).observed = false := by
      rw [Function.update_same]; rfl
    rw [runSectionNotifs_frozen ns _ i hfr, Function.update_same]

theorem section_reveal_threshold_scenario_witness :
    intersects sectionObserverConfig (1 / 10) = false ∧
    notifySection (fun _ => armSection { hidden := false, removeCount := 0 })
      (0, intersects sectionObserverConfig (1 / 10)) =
      (fun _ => armSection { hidden := false, removeCount := 0 }) := by
  have h := section_reveal_threshold_scenario
    (fun _ => armSection { hidden := false, removeCount := 0 }) 0
    { hidden := false, removeCount := 0 } rfl
  exact ⟨h.2.2.2.2.2.1, h.2.2.2.2.2.2.1⟩

/-- C8: the lazy-image observer is configured with threshold 0 and a 200px
pre-trigger margin; on the first intersecting notification the image's live
source is set from its deferred source and the element is unobserved while
the blur class is untouched; the blur class is removed by the element-native
load-completion signal, and no sequence of visibility notifications alone
ever changes it. -/
theorem lazy_image_config_and_blur
    (sti : Nat → Watched ImgEl) (i : Nat) (hobs : (sti i).observed = true) :
    imgObserverConfig.threshold = 0 ∧
    imgObserverConfig.rootMarginPx = 200 ∧
    (notifyImg sti (i, true) i).el.src = some (sti i).el.dataSrc ∧
    (notifyImg sti (i, true) i).el.lazyClass = (sti i).el.lazyClass ∧
    (notifyImg sti (i, true) i).el.loadListeners = (sti i).el.loadListeners + 1 ∧
    (notifyImg sti (i, true) i).observed = false ∧
    (∀ w : Watched ImgEl, 0 < w.el.loadListeners →
      (imgLoadEvent w).el.lazyClass = false) ∧
    (∀ ns, (runImgNotifs sti ns i).el.lazyClass = (sti i).el.lazyClass) := by
  rw [notifyImg_inter_observed sti i hobs, Function.update_same]
  refine ⟨rfl, rfl, rfl, rfl, rfl, rfl, ?_, ?_⟩
  · intro w hw
    simp [imgLoadEvent, hw]
  · intro ns
    exact runImgNotifs_lazyClass ns sti i

theorem lazy_image_config_and_blur_witness :
    (notifyImg (fun _ => pendingImg) (0, true) 0).el.src = some "a.jpg" := by
  have h := lazy_image_config_and_blur (fun _ => pendingImg) 0 rfl
  exact h.2.2.1

/-- C9: the booking-form pipeline distinguishes exactly three outcomes, each
surfaced as a distinct plain-text message and none retried: success fires
the generate_lead analytics event exactly when the analytics function
exists, resets the form, and closes the modal; a non-success response and a
transport error each show their own message and change no state. -/
theorem booking_form_three_outcomes (g : Bool) :
    (bookingSubmit g (.response true)).alertMessage ≠
      (bookingSubmit g (.response false)).alertMessage ∧
    (bookingSubmit g (.response true)).alertMessage ≠
      (bookingSubmit g .networkError).alertMessage ∧
    (bookingSubmit g (.response false)).alertMessage ≠
      (bookingSubmit g .networkError).alertMessage ∧
    (bookingSubmit g (.response true)).analyticsEvent =
      (if g then some "generate_lead" else none) ∧
    (bookingSubmit g (.response true)).formReset = true ∧
    (bookingSubmit g (.response true)).modalClosed = true ∧
    (bookingSubmit g (.response false)).analyticsEvent = none ∧
    (bookingSubmit g (.response false)).formReset = false ∧
    (bookingSubmit g (.response false)).modalClosed = false ∧
    (bookingSubmit g .networkError).analyticsEvent = none ∧
    (bookingSubmit g .networkError).formReset = false ∧
    (bookingSubmit g .networkError).modalClosed = false ∧
    (bookingSubmit g (.response true)).fetchAttempts = 1 ∧
    (bookingSubmit g (.response false)).fetchAttempts = 1 ∧
    (bookingSubmit g .networkError).fetchAttempts = 1 := by
  cases g <;> decide

/-- C10: both viewport-trigger callbacks process only the first entry of
each notification batch: in an invocation whose batch has more than one
entry, every element other than the first entry's target is left completely
unchanged (neither mutated nor unobserved), whatever its intersection
state. -/
theorem callbacks_first_entry_only
    (st : Nat → Watched SectionEl) (sti : Nat → Watched ImgEl)
    (e : Nat × Bool) (rest : List (Nat × Bool)) (j : Nat) (hj : j ≠ e.1) :
    (∀ st', revealSection (e :: rest) st = some st' → st' j = st j) ∧
    (∀ sti', loadImg (e :: rest) sti = some sti' → sti' j = sti j) := by
  obtain ⟨i, inter⟩ := e
  constructor
  · intro st' h
    rw [revealSection] at h
    cases inter
    · simp only [Bool.false_eq_true, if_false, Option.some_inj] at h
      rw [← h]
    · simp only [if_true, Option.some_inj] at h
      rw [← h, Function.update_noteq hj]
  · intro sti' h
    rw [loadImg] at h
    cases inter
    · simp only [Bool.false_eq_true, if_false, Option.some_inj] at h
      rw [← h]
    · simp only [if_true, Option.some_inj] at h
      rw [← h, Function.update_noteq hj]

theorem callbacks_first_entry_only_witness :
    Function.update (fun _ => pendingSection) 0
      (settleSection ((fun _ => pendingSection) 0)) 1 =
      (fun _ => pendingSection) 1 := by
  have h := callbacks_first_entry_only (fun _ => pendingSection)
    (fun _ => pendingImg) (0, true) [(1, true)] 1 (by decide)
  exact h.1 _ rfl

end Script
